import Mathlib

/-!
Verification development for the iDDS Transformer agent
(main/lib/idds/agents/transformer/transformer.py).

The agent's pure logic is embedded shallowly: Python enumerations from
idds.common.constants become Lean inductives (only the members this module
uses are needed; comparisons against `.value` integer variants in the source
collapse because statuses here are the enumeration itself, not ints),
Python dicts keyed by id become association lists with the source's
insert-or-update semantics, and in-place mutation of content dicts becomes
explicit construction of updated records.
-/

namespace IDDS

/-- Content statuses used by the transformer (idds.common.constants.ContentStatus). -/
inductive ContentStatus where
  | New
  | Processing
  | Available
  | Failed
  | FinalFailed
  | Lost
  | Deleted
  | Mapped
  | FakeAvailable
  | Missing
  deriving DecidableEq, Repr

/-- Transform lifecycle statuses (idds.common.constants.TransformStatus). -/
inductive TransformStatus where
  | New
  | Ready
  | Transforming
  | Finished
  | SubFinished
  | Failed
  | Extend
  | ToCancel
  | Cancelling
  | Cancelled
  | ToSuspend
  | Suspending
  | Suspended
  | ToResume
  | Resuming
  | ToExpire
  | Expiring
  | Expired
  | ToFinish
  | ToForceFinish
  deriving DecidableEq, Repr

/-- Collection statuses (idds.common.constants.CollectionStatus). -/
inductive CollectionStatus where
  | Open
  | Closed
  | SubClosed
  | Failed
  | Cancelled
  | Suspended
  deriving DecidableEq, Repr

/-- Content relation types (idds.common.constants.ContentRelationType). -/
inductive ContentRelationType where
  | Input
  | Output
  | Log
  | InputDependency
  deriving DecidableEq, Repr

/-- Content types (idds.common.constants.ContentType). -/
inductive ContentType where
  | File
  | Event
  | PseudoContent
  deriving DecidableEq, Repr

/-- Transform kinds (idds.common.constants.TransformType); kinds beyond the
four the message matrix distinguishes fall to the Unknown row. -/
inductive TransformType where
  | StageIn
  | ActiveLearning
  | HyperParameterOpt
  | Processing
  | Workflow
  deriving DecidableEq, Repr

/-- Transform locking flag (idds.common.constants.TransformLocking). -/
inductive TransformLocking where
  | Idle
  | Locking
  deriving DecidableEq, Repr

/-- Processing statuses used when stamping a new processing model. -/
inductive ProcessingStatus where
  | New
  | ToCancel
  | ToSuspend
  | ToResume
  | ToExpire
  | ToFinish
  | ToForceFinish
  deriving DecidableEq, Repr

/-- Message statuses (idds.common.constants.MessageStatus). -/
inductive MessageStatus where
  | New
  | Delivered
  | Failed
  deriving DecidableEq, Repr

/-- Message source; the transformer always stamps Transformer. -/
inductive MessageSource where
  | Transformer
  deriving DecidableEq, Repr

/-- Message destination; the transformer always stamps Outside. -/
inductive MessageDestination where
  | Outside
  deriving DecidableEq, Repr

/-- The name of a content status, as Python's enum `.name` renders it. -/
def contentStatusName : ContentStatus → String
  | .New => "New"
  | .Processing => "Processing"
  | .Available => "Available"
  | .Failed => "Failed"
  | .FinalFailed => "FinalFailed"
  | .Lost => "Lost"
  | .Deleted => "Deleted"
  | .Mapped => "Mapped"
  | .FakeAvailable => "FakeAvailable"
  | .Missing => "Missing"

/-- The name of a transform status, as Python's enum `.name` renders it. -/
def transformStatusName : TransformStatus → String
  | .New => "New"
  | .Ready => "Ready"
  | .Transforming => "Transforming"
  | .Finished => "Finished"
  | .SubFinished => "SubFinished"
  | .Failed => "Failed"
  | .Extend => "Extend"
  | .ToCancel => "ToCancel"
  | .Cancelling => "Cancelling"
  | .Cancelled => "Cancelled"
  | .ToSuspend => "ToSuspend"
  | .Suspending => "Suspending"
  | .Suspended => "Suspended"
  | .ToResume => "ToResume"
  | .Resuming => "Resuming"
  | .ToExpire => "ToExpire"
  | .Expiring => "Expiring"
  | .Expired => "Expired"
  | .ToFinish => "ToFinish"
  | .ToForceFinish => "ToForceFinish"

/-- The name of a collection status, as Python's enum `.name` renders it. -/
def collectionStatusName : CollectionStatus → String
  | .Open => "Open"
  | .Closed => "Closed"
  | .SubClosed => "SubClosed"
  | .Failed => "Failed"
  | .Cancelled => "Cancelled"
  | .Suspended => "Suspended"

/-- A registered content row as the per-map loops of transformer.py see it:
the fields those loops read or write. -/
structure Content where
  content_id : Nat
  coll_id : Nat
  scope : String
  name : String
  path : Option String
  status : ContentStatus
  substatus : ContentStatus
  bytes : Nat
  deriving DecidableEq, Repr

/-- An update dict appended to `updated_contents`: always carries content_id
and status; the substatus key is present only in the dependency branches
(transformer.py lines 295-297, 306-308, 316-318) and absent in the
independent output flush (lines 324-325). -/
structure UpdatedContent where
  content_id : Nat
  status : ContentStatus
  substatus : Option ContentStatus
  deriving DecidableEq, Repr

/-- One value of `registered_input_output_maps`: the four content lists of a
map_id. A key absent from the Python dict is read as `[]` by the
`... if 'inputs' in ... else []` idiom, so absent lists are the empty list. -/
structure MapEntry where
  inputs : List Content
  outputs : List Content
  logs : List Content
  inputs_dependency : List Content
  deriving DecidableEq, Repr

/-- transformer.py lines 262-266: every dependency's status is Available or
FakeAvailable (vacuously true for an empty or absent dependency list). -/
def is_all_inputs_dependency_available (inputs_dependency : List Content) : Bool :=
  inputs_dependency.all fun content =>
    decide (content.status ∈ [ContentStatus.Available, ContentStatus.FakeAvailable])

/-- transformer.py lines 268-273: every dependency's status is Available,
FakeAvailable, FinalFailed or Missing. -/
def is_all_inputs_dependency_terminated (inputs_dependency : List Content) : Bool :=
  inputs_dependency.all fun content =>
    decide (content.status ∈ [ContentStatus.Available, ContentStatus.FakeAvailable,
                              ContentStatus.FinalFailed, ContentStatus.Missing])

/-- transformer.py lines 275-279: one dependency's status is terminal. -/
def is_input_dependency_terminated (input_dependency : Content) : Bool :=
  decide (input_dependency.status ∈ [ContentStatus.Available, ContentStatus.FakeAvailable,
                                     ContentStatus.FinalFailed, ContentStatus.Missing])

/-- The loop bodies at transformer.py lines 292-300, 303-311 and 312-320: set
every content's substatus to `st`; when the (unchanged) status differs,
record an update dict carrying both keys, flush status to substatus, and
collect the flushed full content. Returns (mutated contents, update dicts,
flushed full contents) in loop order. -/
def set_substatus_and_flush (st : ContentStatus) : List Content → List Content × List UpdatedContent × List Content
  | [] => ([], [], [])
  | content :: rest =>
    let content1 := { content with substatus := st }
    let r := set_substatus_and_flush st rest
    if content1.status ≠ content1.substatus then
      let content2 := { content1 with status := content1.substatus }
      (content2 :: r.1,
       { content_id := content1.content_id, status := content1.substatus,
         substatus := some content1.substatus } :: r.2.1,
       content2 :: r.2.2)
    else
      (content1 :: r.1, r.2.1, r.2.2)

/-- The loop body at transformer.py lines 322-328: for every output whose
status differs from its substatus, flush status to substatus and record an
update dict carrying only the status key. -/
def flush_outputs : List Content → List Content × List UpdatedContent × List Content
  | [] => ([], [], [])
  | content :: rest =>
    let r := flush_outputs rest
    if content.status ≠ content.substatus then
      let content2 := { content with status := content.substatus }
      (content2 :: r.1,
       { content_id := content.content_id, status := content.substatus,
         substatus := none } :: r.2.1,
       content2 :: r.2.2)
    else
      (content :: r.1, r.2.1, r.2.2)

/-- The body of get_updated_contents for one map_id (transformer.py lines
285-328): release inputs when all dependencies are available, mark inputs
and outputs Missing when all dependencies are merely terminated, and in
every case flush outputs whose status lags their substatus. Returns the
mutated map entry together with the per-map slices of `updated_contents`,
`updated_input_contents_full` and `updated_output_contents_full`. -/
def get_updated_contents_map (m : MapEntry) : MapEntry × List UpdatedContent × List Content × List Content :=
  if is_all_inputs_dependency_available m.inputs_dependency then
    let ri := set_substatus_and_flush ContentStatus.Available m.inputs
    let ro := flush_outputs m.outputs
    ({ m with inputs := ri.1, outputs := ro.1 }, ri.2.1 ++ ro.2.1, ri.2.2, ro.2.2)
  else if is_all_inputs_dependency_terminated m.inputs_dependency then
    let ri := set_substatus_and_flush ContentStatus.Missing m.inputs
    let ro1 := set_substatus_and_flush ContentStatus.Missing m.outputs
    let ro2 := flush_outputs ro1.1
    ({ m with inputs := ri.1, outputs := ro2.1 },
     ri.2.1 ++ ro1.2.1 ++ ro2.2.1, ri.2.2, ro1.2.2 ++ ro2.2.2)
  else
    let ro := flush_outputs m.outputs
    ({ m with outputs := ro.1 }, ro.2.1, [], ro.2.2)

/-- transformer.py lines 281-329 (get_updated_contents): iterate the
registered maps in order, accumulating the three result lists. The mutated
map entries are returned as well, since the source mutates the registered
contents in place. -/
def get_updated_contents : List (Nat × MapEntry) → List (Nat × MapEntry) × List UpdatedContent × List Content × List Content
  | [] => ([], [], [], [])
  | (map_id, m) :: rest =>
    let r := get_updated_contents_map m
    let rr := get_updated_contents rest
    ((map_id, r.1) :: rr.1, r.2.1 ++ rr.2.1, r.2.2.1 ++ rr.2.2.1, r.2.2.2 ++ rr.2.2.2)

/-- The closed form of the per-map update rule, used to state the content
engine claims: the three branches of get_updated_contents_map written as
explicit map/filter transformations of the incoming entry. -/
def updated_contents_map_closed_form (m : MapEntry) : MapEntry × List UpdatedContent × List Content × List Content :=
  if is_all_inputs_dependency_available m.inputs_dependency then
    ({ m with
        inputs := m.inputs.map fun c => { c with status := ContentStatus.Available, substatus := ContentStatus.Available },
        outputs := m.outputs.map fun c => { c with status := c.substatus } },
     ((m.inputs.filter fun c => decide (c.status ≠ ContentStatus.Available)).map fun c =>
        { content_id := c.content_id, status := ContentStatus.Available, substatus := some ContentStatus.Available })
       ++ ((m.outputs.filter fun c => decide (c.status ≠ c.substatus)).map fun c =>
        { content_id := c.content_id, status := c.substatus, substatus := none }),
     (m.inputs.filter fun c => decide (c.status ≠ ContentStatus.Available)).map fun c =>
        { c with status := ContentStatus.Available, substatus := ContentStatus.Available },
     (m.outputs.filter fun c => decide (c.status ≠ c.substatus)).map fun c =>
        { c with status := c.substatus })
  else if is_all_inputs_dependency_terminated m.inputs_dependency then
    ({ m with
        inputs := m.inputs.map fun c => { c with status := ContentStatus.Missing, substatus := ContentStatus.Missing },
        outputs := m.outputs.map fun c => { c with status := ContentStatus.Missing, substatus := ContentStatus.Missing } },
     ((m.inputs.filter fun c => decide (c.status ≠ ContentStatus.Missing)).map fun c =>
        { content_id := c.content_id, status := ContentStatus.Missing, substatus := some ContentStatus.Missing })
       ++ ((m.outputs.filter fun c => decide (c.status ≠ ContentStatus.Missing)).map fun c =>
        { content_id := c.content_id, status := ContentStatus.Missing, substatus := some ContentStatus.Missing }),
     (m.inputs.filter fun c => decide (c.status ≠ ContentStatus.Missing)).map fun c =>
        { c with status := ContentStatus.Missing, substatus := ContentStatus.Missing },
     (m.outputs.filter fun c => decide (c.status ≠ ContentStatus.Missing)).map fun c =>
        { c with status := ContentStatus.Missing, substatus := ContentStatus.Missing })
  else
    ({ m with outputs := m.outputs.map fun c => { c with status := c.substatus } },
     (m.outputs.filter fun c => decide (c.status ≠ c.substatus)).map fun c =>
        { content_id := c.content_id, status := c.substatus, substatus := none },
     [],
     (m.outputs.filter fun c => decide (c.status ≠ c.substatus)).map fun c =>
        { c with status := c.substatus })

/-- A dependency-free map with one unreleased input, used to instantiate the
content-engine theorems on concrete data. -/
def demoContentNew : Content :=
  { content_id := 11, coll_id := 1, scope := "s", name := "a", path := none,
    status := ContentStatus.New, substatus := ContentStatus.New, bytes := 5 }

/-- A map entry with a single input and no dependencies. -/
def demoMapNoDeps : MapEntry :=
  { inputs := [demoContentNew], outputs := [], logs := [], inputs_dependency := [] }

/-- The registered maps holding just demoMapNoDeps. -/
def demoMapsNoDeps : List (Nat × MapEntry) := [(1, demoMapNoDeps)]

/-- The Work descriptor as the transformer reads it: the terminal predicate
answers, the operator mutation flags the update handler sets, and the output
data and terminated message the message builder embeds. Methods on the
Python object become fields holding their answers. -/
structure Work where
  is_finished : Bool
  is_subfinished : Bool
  is_failed : Bool
  is_expired : Bool
  is_cancelled : Bool
  is_suspended : Bool
  tocancel : Bool
  tosuspend : Bool
  toresume : Bool
  toexpire : Bool
  tofinish : Bool
  toforcefinish : Bool
  output_data : Option String
  terminated_msg : Option String
  deriving DecidableEq, Repr

/-- The transform row fields this module reads: ids, kind, status, retries,
the errors dict's optional msg entry, and the borrowed Work descriptor
(transform_metadata['work']). -/
structure Transform where
  transform_id : Nat
  request_id : Nat
  workload_id : Nat
  transform_type : TransformType
  status : TransformStatus
  retries : Nat
  errors_msg : Option String
  work : Work
  deriving DecidableEq, Repr

/-- An entry of a work-produced input/output map before flattening. An outer
`none` models a key absent from the Python dict; an inner `none` models a
key present with value None, a distinction lines 176-189 of transformer.py
treat differently from absence only in that both are then coerced. -/
structure IncomingContent where
  coll_id : Nat
  scope : String
  name : String
  min_id : Option (Option Int)
  max_id : Option (Option Int)
  status : Option (Option ContentStatus)
  substatus : Option (Option ContentStatus)
  path : Option (Option String)
  content_type : Option ContentType
  bytes : Nat
  adler32 : String
  content_metadata : Option String
  deriving DecidableEq, Repr

/-- A flattened content dict as get_new_contents builds it. min_id and
max_id keep the Option so the non-null invariant is a statement, not a
typing accident. -/
structure NewContent where
  transform_id : Nat
  coll_id : Nat
  request_id : Nat
  workload_id : Nat
  map_id : Nat
  scope : String
  name : String
  min_id : Option Int
  max_id : Option Int
  status : ContentStatus
  substatus : ContentStatus
  path : Option String
  content_type : ContentType
  content_relation_type : ContentRelationType
  bytes : Nat
  adler32 : String
  content_metadata : Option String
  deriving DecidableEq, Repr

/-- One value of a new input/output map set handed to get_new_contents. -/
structure NewMapEntry where
  inputs : List IncomingContent
  inputs_dependency : List IncomingContent
  outputs : List IncomingContent
  logs : List IncomingContent
  deriving DecidableEq, Repr

/-- transformer.py lines 176-177 then 186-189 (and the same pattern for
max_id): read the id with default 0 when the key is absent, then coerce a
present-but-null value to 0. -/
def coerce_content_id (v : Option (Option Int)) : Option Int :=
  let x : Option Int := match v with
    | none => some 0
    | some w => w
  if x = none then some 0 else x

/-- The content dict built for an input or input-dependency entry
(transformer.py lines 168-190 and 191-213): status and substatus default to
New when absent or null, the path to None, the content type to File. -/
def new_content_from_input (tf : Transform) (map_id : Nat) (rel : ContentRelationType)
    (ic : IncomingContent) : NewContent :=
  { transform_id := tf.transform_id, coll_id := ic.coll_id, request_id := tf.request_id,
    workload_id := tf.workload_id, map_id := map_id, scope := ic.scope, name := ic.name,
    min_id := coerce_content_id ic.min_id, max_id := coerce_content_id ic.max_id,
    status := match ic.status with | some (some s) => s | _ => ContentStatus.New,
    substatus := match ic.substatus with | some (some s) => s | _ => ContentStatus.New,
    path := match ic.path with | none => none | some p => p,
    content_type := ic.content_type.getD ContentType.File,
    content_relation_type := rel, bytes := ic.bytes, adler32 := ic.adler32,
    content_metadata := ic.content_metadata }

/-- The content dict built for an output or log entry (transformer.py lines
214-236 and 237-259): status and substatus are unconditionally New. -/
def new_content_from_output (tf : Transform) (map_id : Nat) (rel : ContentRelationType)
    (ic : IncomingContent) : NewContent :=
  { transform_id := tf.transform_id, coll_id := ic.coll_id, request_id := tf.request_id,
    workload_id := tf.workload_id, map_id := map_id, scope := ic.scope, name := ic.name,
    min_id := coerce_content_id ic.min_id, max_id := coerce_content_id ic.max_id,
    status := ContentStatus.New, substatus := ContentStatus.New,
    path := match ic.path with | none => none | some p => p,
    content_type := ic.content_type.getD ContentType.File,
    content_relation_type := rel, bytes := ic.bytes, adler32 := ic.adler32,
    content_metadata := ic.content_metadata }

/-- transformer.py lines 159-260 (get_new_contents). Returns, in order,
(new_input_contents, new_output_contents, new_log_contents,
new_input_dependency_contents). Note the log loop at lines 237-259: it
stamps content_relation_type Log but appends the built content to
new_output_contents (line 259), and nothing in the function ever appends to
new_log_contents, which is returned still empty. -/
def get_new_contents (tf : Transform) : List (Nat × NewMapEntry) → List NewContent × List NewContent × List NewContent × List NewContent
  | [] => ([], [], [], [])
  | (map_id, m) :: rest =>
    let r := get_new_contents tf rest
    (m.inputs.map (new_content_from_input tf map_id ContentRelationType.Input) ++ r.1,
     m.outputs.map (new_content_from_output tf map_id ContentRelationType.Output)
       ++ m.logs.map (new_content_from_output tf map_id ContentRelationType.Log)
       ++ r.2.1,
     r.2.2.1,
     m.inputs_dependency.map (new_content_from_input tf map_id ContentRelationType.InputDependency)
       ++ r.2.2.2)

/-- A Work descriptor with no terminal predicate holding and no flag set. -/
def demoWorkQuiet : Work :=
  { is_finished := false, is_subfinished := false, is_failed := false, is_expired := false,
    is_cancelled := false, is_suspended := false, tocancel := false, tosuspend := false,
    toresume := false, toexpire := false, tofinish := false, toforcefinish := false,
    output_data := none, terminated_msg := none }

/-- A transform row used to exercise the flattening and transition logic. -/
def demoTransform : Transform :=
  { transform_id := 3, request_id := 2, workload_id := 9, transform_type := TransformType.StageIn,
    status := TransformStatus.Transforming, retries := 0, errors_msg := none, work := demoWorkQuiet }

/-- A log entry handed to get_new_contents, with min_id present but null. -/
def demoIncomingLog : IncomingContent :=
  { coll_id := 7, scope := "s", name := "log1", min_id := some none, max_id := none,
    status := none, substatus := none, path := none, content_type := none,
    bytes := 3, adler32 := "ad", content_metadata := none }

/-- A new map set holding a single map with only a log entry. -/
def demoNewMaps : List (Nat × NewMapEntry) :=
  [(1, { inputs := [], inputs_dependency := [], outputs := [], logs := [demoIncomingLog] })]

/-- The per-collection counter record syn_collection_status accumulates
(transformer.py line 684): total, processed and processing file counts plus
a bytes sum, all starting at 0 when a coll_id is first seen. -/
structure FileStats where
  total_files : Nat
  processed_files : Nat
  processing_files : Nat
  bytes : Nat
  deriving DecidableEq, Repr

/-- The zero record a freshly seen coll_id starts from. -/
def FileStats.init : FileStats := ⟨0, 0, 0, 0⟩

/-- Update a Python-dict-like association list at key k with f, inserting
f applied to the zero record when k is absent: the
`if coll_id not in d: d[coll_id] = zeros` then mutate idiom. -/
def statsUpdate (d : List (Nat × FileStats)) (k : Nat) (f : FileStats → FileStats) : List (Nat × FileStats) :=
  match d with
  | [] => [(k, f FileStats.init)]
  | (k1, v) :: rest => if k1 = k then (k1, f v) :: rest else (k1, v) :: statsUpdate rest k f

/-- Dict lookup. -/
def statsGet (d : List (Nat × FileStats)) (k : Nat) : Option FileStats :=
  match d with
  | [] => none
  | (k1, v) :: rest => if k1 = k then some v else statsGet rest k

/-- Dict lookup defaulting to the zero record. -/
def statsGetD (d : List (Nat × FileStats)) (k : Nat) : FileStats :=
  (statsGet d k).getD FileStats.init

/-- The statuses that count an input content as processed (transformer.py
lines 687-689; the `.value` integer twins of the source collapse here). -/
def input_processed_statuses : List ContentStatus :=
  [ContentStatus.Available, ContentStatus.Mapped, ContentStatus.FakeAvailable]

/-- The statuses that count an output or log content as processed
(transformer.py lines 699-700 and 717-718). -/
def output_processed_statuses : List ContentStatus :=
  [ContentStatus.Available, ContentStatus.FakeAvailable]

/-- The body of the per-content counting loops of syn_collection_status
(transformer.py lines 682-693 for inputs; 695-704 and 713-722 use the
output/log processed set): bump total_files, then either processed_files
and bytes or processing_files according to the status. -/
def accumulate_content_stats (processed : List ContentStatus) (d : List (Nat × FileStats))
    (content : Content) : List (Nat × FileStats) :=
  statsUpdate d content.coll_id fun st =>
    if content.status ∈ processed then
      { st with
          total_files := st.total_files + 1
          processed_files := st.processed_files + 1
          bytes := st.bytes + content.bytes }
    else
      { st with
          total_files := st.total_files + 1
          processing_files := st.processing_files + 1 }

/-- The `if name not in output_statistics: = 0` then `+= 1` idiom at
transformer.py lines 706-708. -/
def statIncr : List (String × Nat) → String → List (String × Nat)
  | [], k => [(k, 1)]
  | (k1, v) :: rest, k => if k1 = k then (k1, v + 1) :: rest else (k1, v) :: statIncr rest k

/-- Dict lookup defaulting to 0, for the output statistics. -/
def statGetD : List (String × Nat) → String → Nat
  | [], _ => 0
  | (k1, v) :: rest, k => if k1 = k then v else statGetD rest k

/-- The five accumulators the loop of syn_collection_status threads:
three per-collection counter dicts, the all-updates-flushed flag and the
output status statistics. -/
structure SynState where
  input_status : List (Nat × FileStats)
  output_status : List (Nat × FileStats)
  log_status : List (Nat × FileStats)
  all_updates_flushed : Bool
  output_statistics : List (String × Nat)
  deriving Repr

/-- One iteration of the outer loop of syn_collection_status (transformer.py
lines 677-722): fold the map's inputs, outputs and logs into the dicts; per
output also count its status name and clear the flushed flag when status
and substatus differ (line 710-711). -/
def syn_collection_status_step (s : SynState) (m : MapEntry) : SynState :=
  { input_status := m.inputs.foldl (accumulate_content_stats input_processed_statuses) s.input_status,
    output_status := m.outputs.foldl (accumulate_content_stats output_processed_statuses) s.output_status,
    log_status := m.logs.foldl (accumulate_content_stats output_processed_statuses) s.log_status,
    all_updates_flushed :=
      m.outputs.foldl (fun b content => if content.status ≠ content.substatus then false else b)
        s.all_updates_flushed,
    output_statistics :=
      m.outputs.foldl (fun d content => statIncr d (contentStatusName content.status))
        s.output_statistics }

/-- The accumulation pass of syn_collection_status over the registered maps
(transformer.py lines 674-722), starting from empty dicts and a true flag. -/
def syn_collection_status_scan (maps : List (Nat × MapEntry)) : SynState :=
  maps.foldl (fun s p => syn_collection_status_step s p.2)
    { input_status := [], output_status := [], log_status := [],
      all_updates_flushed := true, output_statistics := [] }

/-- A collection row as the transformer reads and writes it: identity,
status and the aggregate counters. -/
structure Collection where
  coll_id : Nat
  scope : String
  name : String
  status : CollectionStatus
  total_files : Nat
  processed_files : Nat
  processing_files : Nat
  bytes : Nat
  deriving DecidableEq, Repr

/-- transformer.py lines 673-744 (syn_collection_status): run the
accumulation pass, write the counters into the matching collection rows
(inputs get no bytes, lines 724-728; outputs and logs do, lines 730-742),
and return (all_updates_flushed, output_statistics) — here as the last two
components after the three updated collection lists. -/
def syn_collection_status (input_collections output_collections log_collections : List Collection)
    (maps : List (Nat × MapEntry)) :
    List Collection × List Collection × List Collection × Bool × List (String × Nat) :=
  let s := syn_collection_status_scan maps
  (input_collections.map fun coll =>
     match statsGet s.input_status coll.coll_id with
     | some st => { coll with
                      total_files := st.total_files
                      processed_files := st.processed_files
                      processing_files := st.processing_files }
     | none => coll,
   output_collections.map fun coll =>
     match statsGet s.output_status coll.coll_id with
     | some st => { coll with
                      total_files := st.total_files
                      processed_files := st.processed_files
                      processing_files := st.processing_files
                      bytes := st.bytes }
     | none => coll,
   log_collections.map fun coll =>
     match statsGet s.log_status coll.coll_id with
     | some st => { coll with
                      total_files := st.total_files
                      processed_files := st.processed_files
                      processing_files := st.processing_files
                      bytes := st.bytes }
     | none => coll,
   s.all_updates_flushed, s.output_statistics)

/-- The inputs of all registered maps, in iteration order. -/
def allInputs : List (Nat × MapEntry) → List Content
  | [] => []
  | (_, m) :: rest => m.inputs ++ allInputs rest

/-- The outputs of all registered maps, in iteration order. -/
def allOutputs : List (Nat × MapEntry) → List Content
  | [] => []
  | (_, m) :: rest => m.outputs ++ allOutputs rest

/-- The logs of all registered maps, in iteration order. -/
def allLogs : List (Nat × MapEntry) → List Content
  | [] => []
  | (_, m) :: rest => m.logs ++ allLogs rest

/-- The parameter-only row a handler writes when something goes wrong:
status, a next_poll_at pushed out by this many seconds, the retries counter
and the locking flag. -/
structure ExceptionParams where
  status : TransformStatus
  next_poll_delta : Nat
  retries : Nat
  locking : TransformLocking
  deriving DecidableEq, Repr

/-- transformer.py lines 449-463, the except branch of handle_new_transform:
status Failed when the current retries counter exceeds the limit, otherwise
Transforming; next_poll_at pushed out by poll_time_period times
max(4, retries); retries incremented; locking released. -/
def handle_new_transform_on_error (tf_retries retries_limit poll_time_period : Nat) : ExceptionParams :=
  let tf_status := if tf_retries > retries_limit then TransformStatus.Failed
    else TransformStatus.Transforming
  let wait_times := max 4 tf_retries
  { status := tf_status, next_poll_delta := poll_time_period * wait_times,
    retries := tf_retries + 1, locking := TransformLocking.Idle }

/-- transformer.py lines 1151-1165, the except branch of
handle_update_transform: textually the same recovery as
handle_new_transform's. -/
def handle_update_transform_on_error (tf_retries retries_limit poll_time_period : Nat) : ExceptionParams :=
  let tf_status := if tf_retries > retries_limit then TransformStatus.Failed
    else TransformStatus.Transforming
  let wait_times := max 4 tf_retries
  { status := tf_status, next_poll_delta := poll_time_period * wait_times,
    retries := tf_retries + 1, locking := TransformLocking.Idle }

/-- What the guard at the top of process_abort_transform or
process_resume_transform does with a locked transform row: write the
lock-release row with an errors.extra_msg (short-circuit), crash on the
`ret['parameters']` lookup when the transform's errors dict already carries
a msg (the ret dict's key is 'transform_parameters', so `ret['parameters']`
raises KeyError and the outer except swallows it without writing), or fall
through to the handling path. -/
inductive OperatorGuardOutcome where
  | shortCircuitWrite (locking : TransformLocking) (extra_msg : String)
  | keyErrorNoWrite
  | proceed
  deriving DecidableEq, Repr

/-- The six terminal transform statuses listed at transformer.py lines
1220-1222. -/
def terminated_statuses : List TransformStatus :=
  [TransformStatus.Finished, TransformStatus.SubFinished, TransformStatus.Failed,
   TransformStatus.Cancelled, TransformStatus.Suspended, TransformStatus.Expired]

/-- transformer.py lines 1215-1232 (process_abort_transform): a transform in
any of the six terminal statuses short-circuits with locking Idle and
errors.extra_msg (lines 1223-1225); when tf['errors'] carries 'msg' the
`ret['parameters']` lookup at line 1227 raises KeyError instead; any other
status proceeds to handle_abort_transform. -/
def process_abort_transform_guard (tf : Transform) : OperatorGuardOutcome :=
  if tf.status ∈ terminated_statuses then
    if tf.errors_msg.isSome then OperatorGuardOutcome.keyErrorNoWrite
    else OperatorGuardOutcome.shortCircuitWrite TransformLocking.Idle
      "Transform is already terminated. Cannot be aborted"
  else OperatorGuardOutcome.proceed

/-- transformer.py lines 1306-1321 (process_resume_transform): the guard at
line 1311 tests membership in [TransformStatus.Finished] only, so only a
Finished transform short-circuits; every other status, terminal or not,
falls to the else branch. -/
def process_resume_transform_guard (tf : Transform) : OperatorGuardOutcome :=
  if tf.status ∈ [TransformStatus.Finished] then
    if tf.errors_msg.isSome then OperatorGuardOutcome.keyErrorNoWrite
    else OperatorGuardOutcome.shortCircuitWrite TransformLocking.Idle
      "Transform is already finished. Cannot be resumed"
  else OperatorGuardOutcome.proceed

/-- A transform already terminal with status Failed and a clean errors
dict, used against the resume guard. -/
def demoFailedTransform : Transform :=
  { transform_id := 4, request_id := 2, workload_id := 9,
    transform_type := TransformType.StageIn, status := TransformStatus.Failed,
    retries := 0, errors_msg := none, work := demoWorkQuiet }

/-- What one call of update_transform does, seen from outside: the deadlock
sleeps performed, how many attempts the retry loop made, how many times the
full bundle was committed, whether the storage error surfaced out of the
loop, and the parameter-only fallback row the outer except then writes. -/
structure UpdateTransformRun where
  sleeps : List Nat
  attempts : Nat
  commits : Nat
  surfaced : Bool
  fallback : Option ExceptionParams
  deriving DecidableEq, Repr

/-- transformer.py lines 471-502, the while-retry loop of update_transform:
`fails n` says whether the n-th add_transform_outputs attempt raises a
deadlock. The loop re-tries while the attempt number (the incremented
retry_num) is below 5, sleeping 60 * retry_num * 2 seconds first; the
fifth deadlock re-raises. Returns (sleeps, attempts, success). -/
def update_transform_retry_loop (fails : Nat → Bool) (retry_num : Nat) :
    List Nat × Nat × Bool :=
  if fails (retry_num + 1) then
    if h : retry_num + 1 < 5 then
      let r := update_transform_retry_loop fails (retry_num + 1)
      (60 * (retry_num + 1) * 2 :: r.1, r.2.1 + 1, r.2.2)
    else ([], 1, false)
  else ([], 1, true)
termination_by 5 - retry_num
decreasing_by omega

/-- transformer.py lines 466-518 (update_transform): run the retry loop from
retry_num 0; on success the bundle is committed exactly once; on a surfaced
error the outer except writes only the parameter row with status
Transforming, next_poll_at pushed by poll_time_period, retries incremented
and locking Idle (lines 509-514). -/
def update_transform_run (fails : Nat → Bool) (tf_retries poll_time_period : Nat) :
    UpdateTransformRun :=
  let r := update_transform_retry_loop fails 0
  if r.2.2 then
    { sleeps := r.1, attempts := r.2.1, commits := 1, surfaced := false, fallback := none }
  else
    { sleeps := r.1, attempts := r.2.1, commits := 0, surfaced := true,
      fallback := some { status := TransformStatus.Transforming,
                         next_poll_delta := poll_time_period,
                         retries := tf_retries + 1, locking := TransformLocking.Idle } }

/-- The facade deadlocks on every attempt. -/
def failsAlways : Nat → Bool := fun _ => true

/-- The facade deadlocks on the first two attempts and then succeeds. -/
def failsFirstTwo : Nat → Bool := fun n => decide (n ≤ 2)

/-- transformer.py lines 546-597 (get_message_type): the 4 x 3 matrix from
transform kind and input type to the message type enum and its string name,
with the Unknown row as fallback. The string literals of MessageTypeStr
live in idds.common.constants; the enum member names are used for them
here. -/
inductive MessageType where
  | StageInFile
  | StageInCollection
  | StageInWork
  | ActiveLearningFile
  | ActiveLearningCollection
  | ActiveLearningWork
  | HyperParameterOptFile
  | HyperParameterOptCollection
  | HyperParameterOptWork
  | ProcessingFile
  | ProcessingCollection
  | ProcessingWork
  | UnknownFile
  | UnknownCollection
  | UnknownWork
  deriving DecidableEq, Repr

/-- The matrix dispatch of get_message_type. -/
def get_message_type (transform_type : TransformType) (input_type : String) : MessageType × String :=
  match transform_type with
  | TransformType.StageIn =>
    if input_type = "work" then (MessageType.StageInWork, "StageInWork")
    else if input_type = "collection" then (MessageType.StageInCollection, "StageInCollection")
    else (MessageType.StageInFile, "StageInFile")
  | TransformType.ActiveLearning =>
    if input_type = "work" then (MessageType.ActiveLearningWork, "ActiveLearningWork")
    else if input_type = "collection" then (MessageType.ActiveLearningCollection, "ActiveLearningCollection")
    else (MessageType.ActiveLearningFile, "ActiveLearningFile")
  | TransformType.HyperParameterOpt =>
    if input_type = "work" then (MessageType.HyperParameterOptWork, "HyperParameterOptWork")
    else if input_type = "collection" then (MessageType.HyperParameterOptCollection, "HyperParameterOptCollection")
    else (MessageType.HyperParameterOptFile, "HyperParameterOptFile")
  | TransformType.Processing =>
    if input_type = "work" then (MessageType.ProcessingWork, "ProcessingWork")
    else if input_type = "collection" then (MessageType.ProcessingCollection, "ProcessingCollection")
    else (MessageType.ProcessingFile, "ProcessingFile")
  | _ =>
    if input_type = "work" then (MessageType.UnknownWork, "UnknownWork")
    else if input_type = "collection" then (MessageType.UnknownCollection, "UnknownCollection")
    else (MessageType.UnknownFile, "UnknownFile")

/-- One element of a collection message's collections list. -/
structure CollMsgEntry where
  scope : String
  name : String
  status : String
  deriving DecidableEq, Repr

/-- One element of a file message's files list. -/
structure FileMsgEntry where
  scope : String
  name : String
  path : Option String
  status : String
  deriving DecidableEq, Repr

/-- The msg_content payload of generate_message, one shape per msg_type. -/
inductive MsgContent where
  | workContent (msg_type : String) (request_id workload_id : Nat) (relation_type : String)
      (status : String) (output : Option String) (error : Option String)
  | collectionContent (msg_type : String) (request_id workload_id : Nat) (relation_type : String)
      (collections : List CollMsgEntry) (output : Option String) (error : Option String)
  | fileContent (msg_type : String) (request_id workload_id : Nat) (relation_type : String)
      (files : List FileMsgEntry)
  deriving DecidableEq, Repr

/-- An outbound message row as generate_message assembles it. -/
structure Msg where
  msg_type : MessageType
  status : MessageStatus
  source : MessageSource
  destination : MessageDestination
  request_id : Nat
  workload_id : Nat
  transform_id : Nat
  num_contents : Nat
  msg_content : MsgContent
  deriving DecidableEq, Repr

/-- Whether a message carries a work payload. -/
def Msg.is_work_content (m : Msg) : Bool :=
  match m.msg_content with
  | MsgContent.workContent .. => true
  | _ => false

/-- Whether a message carries a collection payload. -/
def Msg.is_collection_content (m : Msg) : Bool :=
  match m.msg_content with
  | MsgContent.collectionContent .. => true
  | _ => false

/-- transformer.py lines 599-671 (generate_message). A work message needs a
Work and carries the transform status name plus the work's output data and
terminated message; a collection message needs a Collection (falling back
to the transform's own Work when none is passed) and strips a trailing
".idds.stagein" from the collection name; any other msg_type builds a file
message from the files, rewriting FakeAvailable to Available, and returns
None when the files list is empty. -/
def generate_message (transform : Transform) (work : Option Work) (collection : Option Collection)
    (files : List Content) (msg_type relation_type : String) : Option Msg :=
  if msg_type = "work" then
    match work with
    | none => none
    | some w =>
      let mt := get_message_type transform.transform_type "work"
      some { msg_type := mt.1, status := MessageStatus.New, source := MessageSource.Transformer,
             destination := MessageDestination.Outside, request_id := transform.request_id,
             workload_id := transform.workload_id, transform_id := transform.transform_id,
             num_contents := 1,
             msg_content := MsgContent.workContent mt.2 transform.request_id transform.workload_id
               relation_type (transformStatusName transform.status) w.output_data w.terminated_msg }
  else if msg_type = "collection" then
    match collection with
    | none => none
    | some coll =>
      let w := match work with
        | some w => w
        | none => transform.work
      let coll_name := if coll.name.endsWith ".idds.stagein" then
          coll.name.replace ".idds.stagein" "" else coll.name
      let mt := get_message_type transform.transform_type "collection"
      some { msg_type := mt.1, status := MessageStatus.New, source := MessageSource.Transformer,
             destination := MessageDestination.Outside, request_id := transform.request_id,
             workload_id := transform.workload_id, transform_id := transform.transform_id,
             num_contents := 1,
             msg_content := MsgContent.collectionContent mt.2 transform.request_id
               transform.workload_id relation_type
               [{ scope := coll.scope, name := coll_name, status := collectionStatusName coll.status }]
               w.output_data w.terminated_msg }
  else
    match files with
    | [] => none
    | _ =>
      let mt := get_message_type transform.transform_type "file"
      let files_message := files.map fun file =>
        let file_status := if file.status = ContentStatus.FakeAvailable then
            contentStatusName ContentStatus.Available else contentStatusName file.status
        { scope := file.scope, name := file.name, path := file.path,
          status := file_status : FileMsgEntry }
      some { msg_type := mt.1, status := MessageStatus.New, source := MessageSource.Transformer,
             destination := MessageDestination.Outside, request_id := transform.request_id,
             workload_id := transform.workload_id, transform_id := transform.transform_id,
             num_contents := files_message.length,
             msg_content := MsgContent.fileContent mt.2 transform.request_id
               transform.workload_id relation_type files_message }

/-- The body of reactive_contents for one map (transformer.py lines
748-770): when some output is not Available, reset every input and output
to New/New and every non-Available dependency to New/New; a map whose
outputs are all Available (vacuously so with no outputs) contributes
nothing. -/
def reactive_contents_map (m : MapEntry) : List UpdatedContent :=
  let all_outputs_available := m.outputs.all fun content =>
    decide (content.status ∈ [ContentStatus.Available])
  if ¬ all_outputs_available then
    ((m.inputs ++ m.outputs).map fun content =>
      { content_id := content.content_id, status := ContentStatus.New,
        substatus := some ContentStatus.New })
    ++ ((m.inputs_dependency.filter fun content =>
          decide (content.status ∉ [ContentStatus.Available])).map fun content =>
      { content_id := content.content_id, status := ContentStatus.New,
        substatus := some ContentStatus.New })
  else []

/-- transformer.py lines 746-771 (reactive_contents): accumulate the per-map
resets over the registered maps in order. -/
def reactive_contents : List (Nat × MapEntry) → List UpdatedContent
  | [] => []
  | (_, m) :: rest => reactive_contents_map m ++ reactive_contents rest

/-- The To* operator statuses recognised at transformer.py lines 784-786. -/
def opStatuses : List TransformStatus :=
  [TransformStatus.ToCancel, TransformStatus.ToSuspend, TransformStatus.ToResume,
   TransformStatus.ToExpire, TransformStatus.ToFinish, TransformStatus.ToForceFinish]

/-- What the state-transition block of handle_update_transform_real
(transformer.py lines 931-1058) produces: the new transform status, the
mutated work, the collection lists after any status writes, the resume
marker, the reactivated contents and the messages the block appends. -/
structure ChainOut where
  status : TransformStatus
  work : Work
  input_collections : List Collection
  output_collections : List Collection
  log_collections : List Collection
  to_resume_transform : Bool
  reactivated_contents : List UpdatedContent
  msgs : List (Option Msg)
  deriving Repr

/-- One terminal branch of the chain (transformer.py lines 961-976 and its
five siblings): set the transform status, emit one work message (using the
already-updated status), set every collection's status and emit one
collection message per collection, inputs then outputs then logs. -/
def terminal_transition (tf : Transform) (work : Work) (ts : TransformStatus)
    (cs : CollectionStatus) (ics ocs lcs : List Collection) : ChainOut :=
  let tf1 := { tf with status := ts }
  let work_msg := generate_message tf1 (some work) none [] "work" "input"
  let ics1 := ics.map fun coll => { coll with status := cs }
  let ocs1 := ocs.map fun coll => { coll with status := cs }
  let lcs1 := lcs.map fun coll => { coll with status := cs }
  { status := ts, work := work, input_collections := ics1, output_collections := ocs1,
    log_collections := lcs1, to_resume_transform := false, reactivated_contents := [],
    msgs := work_msg ::
      ((ics1.map fun coll => generate_message tf1 (some work) (some coll) [] "collection" "input")
        ++ (ocs1.map fun coll => generate_message tf1 (some work) (some coll) [] "collection" "output")
        ++ (lcs1.map fun coll => generate_message tf1 (some work) (some coll) [] "collection" "log")) }

/-- The if/elif chain at transformer.py lines 931-1058: the six To* operator
branches first (ToResume additionally reactivates contents and reopens all
collections), then the Work terminal predicates in the order is_finished,
is_subfinished, is_failed, is_expired, is_cancelled, is_suspended, and
finally the Transforming default. -/
def transform_transition_chain (tf : Transform) (work : Work) (ics ocs lcs : List Collection)
    (registered : List (Nat × MapEntry)) : ChainOut :=
  if tf.status = TransformStatus.ToCancel then
    { status := TransformStatus.Cancelling, work := { work with tocancel := true },
      input_collections := ics, output_collections := ocs, log_collections := lcs,
      to_resume_transform := false, reactivated_contents := [], msgs := [] }
  else if tf.status = TransformStatus.ToSuspend then
    { status := TransformStatus.Suspending, work := { work with tosuspend := true },
      input_collections := ics, output_collections := ocs, log_collections := lcs,
      to_resume_transform := false, reactivated_contents := [], msgs := [] }
  else if tf.status = TransformStatus.ToResume then
    { status := TransformStatus.Resuming, work := { work with toresume := true },
      input_collections := ics.map fun coll => { coll with status := CollectionStatus.Open },
      output_collections := ocs.map fun coll => { coll with status := CollectionStatus.Open },
      log_collections := lcs.map fun coll => { coll with status := CollectionStatus.Open },
      to_resume_transform := true, reactivated_contents := reactive_contents registered,
      msgs := [] }
  else if tf.status = TransformStatus.ToExpire then
    { status := TransformStatus.Expiring, work := { work with toexpire := true },
      input_collections := ics, output_collections := ocs, log_collections := lcs,
      to_resume_transform := false, reactivated_contents := [], msgs := [] }
  else if tf.status = TransformStatus.ToFinish then
    { status := TransformStatus.Transforming, work := { work with tofinish := true },
      input_collections := ics, output_collections := ocs, log_collections := lcs,
      to_resume_transform := false, reactivated_contents := [], msgs := [] }
  else if tf.status = TransformStatus.ToForceFinish then
    { status := TransformStatus.Transforming, work := { work with toforcefinish := true },
      input_collections := ics, output_collections := ocs, log_collections := lcs,
      to_resume_transform := false, reactivated_contents := [], msgs := [] }
  else if work.is_finished then
    terminal_transition tf work TransformStatus.Finished CollectionStatus.Closed ics ocs lcs
  else if work.is_subfinished then
    terminal_transition tf work TransformStatus.SubFinished CollectionStatus.SubClosed ics ocs lcs
  else if work.is_failed then
    terminal_transition tf work TransformStatus.Failed CollectionStatus.Failed ics ocs lcs
  else if work.is_expired then
    terminal_transition tf work TransformStatus.Expired CollectionStatus.SubClosed ics ocs lcs
  else if work.is_cancelled then
    terminal_transition tf work TransformStatus.Cancelled CollectionStatus.Cancelled ics ocs lcs
  else if work.is_suspended then
    terminal_transition tf work TransformStatus.Suspended CollectionStatus.Suspended ics ocs lcs
  else
    { status := TransformStatus.Transforming, work := work,
      input_collections := ics, output_collections := ocs, log_collections := lcs,
      to_resume_transform := false, reactivated_contents := [], msgs := [] }

/-- The state-transition block together with the poll backoff and the
unconditional retries reset of transformer.py lines 1060-1076. -/
structure TransitionResult where
  status : TransformStatus
  retries : Nat
  work : Work
  input_collections : List Collection
  output_collections : List Collection
  log_collections : List Collection
  to_resume_transform : Bool
  reactivated_contents : List UpdatedContent
  msgs : List (Option Msg)
  next_poll_delta : Nat
  deriving Repr

/-- transformer.py lines 931-1076: run the transition chain, compute the
poll backoff (poll_time_period outside operator handling; for operator
requests poll_operation_time_period, times 5 on resume) and reset retries
to 0. -/
def transform_transition (tf : Transform) (work : Work) (ics ocs lcs : List Collection)
    (registered : List (Nat × MapEntry)) (poll_time_period poll_operation_time_period : Nat) :
    TransitionResult :=
  let is_operation := tf.status ∈ opStatuses
  let c := transform_transition_chain tf work ics ocs lcs registered
  let next_poll_delta := if ¬ is_operation then poll_time_period
    else if c.to_resume_transform then poll_operation_time_period * 5
    else poll_operation_time_period
  { status := c.status, retries := 0, work := c.work,
    input_collections := c.input_collections, output_collections := c.output_collections,
    log_collections := c.log_collections, to_resume_transform := c.to_resume_transform,
    reactivated_contents := c.reactivated_contents, msgs := c.msgs,
    next_poll_delta := next_poll_delta }

/-- What one terminal branch of the transition is required to produce: the
matching transform status; every input, output and log collection set to
the branch's collection status; the appended messages being exactly one
work message followed by one collection message per collection (inputs,
outputs, logs in order), every one a real message. -/
def terminal_branch_spec (tf : Transform) (work : Work) (ics ocs lcs : List Collection)
    (r : TransitionResult) (ts : TransformStatus) (cs : CollectionStatus) : Prop :=
  r.status = ts ∧
  r.input_collections = ics.map (fun coll => { coll with status := cs }) ∧
  r.output_collections = ocs.map (fun coll => { coll with status := cs }) ∧
  r.log_collections = lcs.map (fun coll => { coll with status := cs }) ∧
  r.msgs = generate_message { tf with status := ts } (some work) none [] "work" "input" ::
      (((ics.map fun coll => { coll with status := cs }).map fun coll =>
          generate_message { tf with status := ts } (some work) (some coll) [] "collection" "input")
        ++ ((ocs.map fun coll => { coll with status := cs }).map fun coll =>
          generate_message { tf with status := ts } (some work) (some coll) [] "collection" "output")
        ++ ((lcs.map fun coll => { coll with status := cs }).map fun coll =>
          generate_message { tf with status := ts } (some work) (some coll) [] "collection" "log")) ∧
  r.msgs.length = 1 + (ics.length + ocs.length + lcs.length) ∧
  (∃ m : Msg, r.msgs.head? = some (some m) ∧ m.is_work_content = true) ∧
  ∀ o ∈ r.msgs.tail, ∃ m : Msg, o = some m ∧ m.is_collection_content = true ∧ m.num_contents = 1

/-- A Work whose is_finished predicate answers true. -/
def demoWorkFinished : Work := { demoWorkQuiet with is_finished := true }

/-- An open input collection used to exercise the transition block. -/
def demoColl : Collection :=
  { coll_id := 21, scope := "s", name := "data.idds.stagein", status := CollectionStatus.Open,
    total_files := 0, processed_files := 0, processing_files := 0, bytes := 0 }

/-- What the ToResume branch of the transition block must produce: status
Resuming, retries 0, the work's toresume flag set, every collection
reopened, the operator backoff times 5, and the reactivation resets of
reactive_contents, which per map reset every Input and Output (and every
non-Available dependency) to New whenever some Output is not Available, and
produce nothing for maps whose Outputs are all Available. -/
def toresume_spec (tf : Transform) (work : Work) (ics ocs lcs : List Collection)
    (registered : List (Nat × MapEntry)) (p pop : Nat) : Prop :=
  (transform_transition tf work ics ocs lcs registered p pop).status = TransformStatus.Resuming ∧
  (transform_transition tf work ics ocs lcs registered p pop).retries = 0 ∧
  (transform_transition tf work ics ocs lcs registered p pop).work =
    { work with toresume := true } ∧
  (transform_transition tf work ics ocs lcs registered p pop).input_collections =
    ics.map (fun coll => { coll with status := CollectionStatus.Open }) ∧
  (transform_transition tf work ics ocs lcs registered p pop).output_collections =
    ocs.map (fun coll => { coll with status := CollectionStatus.Open }) ∧
  (transform_transition tf work ics ocs lcs registered p pop).log_collections =
    lcs.map (fun coll => { coll with status := CollectionStatus.Open }) ∧
  (transform_transition tf work ics ocs lcs registered p pop).to_resume_transform = true ∧
  (transform_transition tf work ics ocs lcs registered p pop).next_poll_delta = pop * 5 ∧
  (transform_transition tf work ics ocs lcs registered p pop).reactivated_contents =
    reactive_contents registered ∧
  reactive_contents registered = (registered.flatMap fun q => reactive_contents_map q.2) ∧
  ∀ m : MapEntry,
    ((m.outputs.all fun c => decide (c.status ∈ [ContentStatus.Available])) = true →
      reactive_contents_map m = []) ∧
    ((m.outputs.all fun c => decide (c.status ∈ [ContentStatus.Available])) = false →
      reactive_contents_map m =
        ((m.inputs ++ m.outputs).map fun c =>
          { content_id := c.content_id, status := ContentStatus.New,
            substatus := some ContentStatus.New })
        ++ ((m.inputs_dependency.filter fun c =>
              decide (c.status ∉ [ContentStatus.Available])).map fun c =>
          { content_id := c.content_id, status := ContentStatus.New,
            substatus := some ContentStatus.New }))

/-- A transform row carrying the operator request ToResume. -/
def demoResumeTransform : Transform :=
  { demoTransform with status := TransformStatus.ToResume }

theorem set_substatus_and_flush_fst (st : ContentStatus) (l : List Content) :
    (set_substatus_and_flush st l).1 = l.map fun c => { c with status := st, substatus := st } := by
  induction l with
  | nil => rfl
  | cons c rest ih =>
    rcases c with ⟨cid, coll, sc, nm, pth, stt, sst, bt⟩
    by_cases h : stt = st <;> simp [set_substatus_and_flush, h, ih]

theorem set_substatus_and_flush_upd (st : ContentStatus) (l : List Content) :
    (set_substatus_and_flush st l).2.1 =
      (l.filter fun c => decide (c.status ≠ st)).map fun c =>
        { content_id := c.content_id, status := st, substatus := some st } := by
  induction l with
  | nil => rfl
  | cons c rest ih =>
    rcases c with ⟨cid, coll, sc, nm, pth, stt, sst, bt⟩
    by_cases h : stt = st <;> simp [set_substatus_and_flush, h, ih]

theorem set_substatus_and_flush_full (st : ContentStatus) (l : List Content) :
    (set_substatus_and_flush st l).2.2 =
      (l.filter fun c => decide (c.status ≠ st)).map fun c =>
        { c with status := st, substatus := st } := by
  induction l with
  | nil => rfl
  | cons c rest ih =>
    rcases c with ⟨cid, coll, sc, nm, pth, stt, sst, bt⟩
    by_cases h : stt = st <;> simp [set_substatus_and_flush, h, ih]

theorem flush_outputs_fst (l : List Content) :
    (flush_outputs l).1 = l.map fun c => { c with status := c.substatus } := by
  induction l with
  | nil => rfl
  | cons c rest ih =>
    rcases c with ⟨cid, coll, sc, nm, pth, stt, sst, bt⟩
    by_cases h : stt = sst <;> simp [flush_outputs, h, ih]

theorem flush_outputs_upd (l : List Content) :
    (flush_outputs l).2.1 =
      (l.filter fun c => decide (c.status ≠ c.substatus)).map fun c =>
        { content_id := c.content_id, status := c.substatus, substatus := none } := by
  induction l with
  | nil => rfl
  | cons c rest ih =>
    rcases c with ⟨cid, coll, sc, nm, pth, stt, sst, bt⟩
    by_cases h : stt = sst <;> simp [flush_outputs, h, ih]

theorem flush_outputs_full (l : List Content) :
    (flush_outputs l).2.2 =
      (l.filter fun c => decide (c.status ≠ c.substatus)).map fun c =>
        { c with status := c.substatus } := by
  induction l with
  | nil => rfl
  | cons c rest ih =>
    rcases c with ⟨cid, coll, sc, nm, pth, stt, sst, bt⟩
    by_cases h : stt = sst <;> simp [flush_outputs, h, ih]

theorem get_updated_contents_maps_eq (maps : List (Nat × MapEntry)) :
    (get_updated_contents maps).1 = maps.map fun p => (p.1, (get_updated_contents_map p.2).1) := by
  induction maps with
  | nil => rfl
  | cons p rest ih => simp [get_updated_contents, ih]

theorem get_updated_contents_upd_eq (maps : List (Nat × MapEntry)) :
    (get_updated_contents maps).2.1 = maps.flatMap fun p => (get_updated_contents_map p.2).2.1 := by
  induction maps with
  | nil => rfl
  | cons p rest ih => simp [get_updated_contents, ih]

theorem get_updated_contents_infull_eq (maps : List (Nat × MapEntry)) :
    (get_updated_contents maps).2.2.1 = maps.flatMap fun p => (get_updated_contents_map p.2).2.2.1 := by
  induction maps with
  | nil => rfl
  | cons p rest ih => simp [get_updated_contents, ih]

theorem get_updated_contents_outfull_eq (maps : List (Nat × MapEntry)) :
    (get_updated_contents maps).2.2.2 = maps.flatMap fun p => (get_updated_contents_map p.2).2.2.2 := by
  induction maps with
  | nil => rfl
  | cons p rest ih => simp [get_updated_contents, ih]

theorem get_updated_contents_map_closed (m : MapEntry) :
    get_updated_contents_map m = updated_contents_map_closed_form m := by
  unfold get_updated_contents_map updated_contents_map_closed_form
  by_cases ha : is_all_inputs_dependency_available m.inputs_dependency <;>
    by_cases ht : is_all_inputs_dependency_terminated m.inputs_dependency <;>
      simp [ha, ht, set_substatus_and_flush_fst, set_substatus_and_flush_upd,
        set_substatus_and_flush_full, flush_outputs_fst, flush_outputs_upd, flush_outputs_full,
        List.filter_map, Function.comp_def, List.map_map]

theorem get_updated_contents_map_outputs_flushed (m : MapEntry) :
    ∀ c ∈ (get_updated_contents_map m).1.outputs, c.status = c.substatus := by
  rw [get_updated_contents_map_closed]
  unfold updated_contents_map_closed_form
  by_cases ha : is_all_inputs_dependency_available m.inputs_dependency <;>
    by_cases ht : is_all_inputs_dependency_terminated m.inputs_dependency <;>
      simp only [ha, ht, Bool.true_eq_false, if_true, if_false, Bool.false_eq_true] <;>
        · intro c hc
          simp only [List.mem_map] at hc
          obtain ⟨a, _, rfl⟩ := hc
          rfl

/-- C1: for every registered map processed by get_updated_contents, the
per-map dependency rule holds: when every InputDependency status is
Available or FakeAvailable, every sibling Input gets substatus Available and
the Inputs whose status differed are flushed to Available and recorded in
updated_contents and updated_input_contents_full; otherwise, when every
InputDependency status is Available, FakeAvailable, FinalFailed or Missing,
every sibling Input and Output gets substatus Missing under the same
flush-and-record rule; and independently of both branches, every Output
whose status differs from its substatus is flushed to the substatus and
recorded. The first four conjuncts decompose get_updated_contents into the
per-map processing; the fifth is the per-map rule in closed form; the last
states that every output leaves the pass with status equal to substatus. -/
theorem get_updated_contents_dependency_rules (maps : List (Nat × MapEntry)) (m : MapEntry) :
    ((get_updated_contents maps).1 = maps.map fun p => (p.1, (get_updated_contents_map p.2).1)) ∧
    ((get_updated_contents maps).2.1 = maps.flatMap fun p => (get_updated_contents_map p.2).2.1) ∧
    ((get_updated_contents maps).2.2.1 = maps.flatMap fun p => (get_updated_contents_map p.2).2.2.1) ∧
    ((get_updated_contents maps).2.2.2 = maps.flatMap fun p => (get_updated_contents_map p.2).2.2.2) ∧
    get_updated_contents_map m = updated_contents_map_closed_form m ∧
    ∀ c ∈ (get_updated_contents_map m).1.outputs, c.status = c.substatus :=
  ⟨get_updated_contents_maps_eq maps, get_updated_contents_upd_eq maps,
   get_updated_contents_infull_eq maps, get_updated_contents_outfull_eq maps,
   get_updated_contents_map_closed m, get_updated_contents_map_outputs_flushed m⟩

/-- C10: a registered map whose InputDependency list is empty satisfies the
all-available predicate vacuously, so get_updated_contents releases its
inputs on the spot: every Input of the map ends with status and substatus
Available, the Inputs whose status was not Available appear in
updated_input_contents_full, and each of them contributes an update record
to the global updated_contents list. -/
theorem get_updated_contents_releases_dependency_free_inputs
    (maps : List (Nat × MapEntry)) (map_id : Nat) (m : MapEntry)
    (hm : (map_id, m) ∈ maps) (hdep : m.inputs_dependency = []) :
    is_all_inputs_dependency_available m.inputs_dependency = true ∧
    (get_updated_contents_map m).1.inputs =
      m.inputs.map (fun c => { c with status := ContentStatus.Available, substatus := ContentStatus.Available }) ∧
    (get_updated_contents_map m).2.2.1 =
      (m.inputs.filter fun c => decide (c.status ≠ ContentStatus.Available)).map
        (fun c => { c with status := ContentStatus.Available, substatus := ContentStatus.Available }) ∧
    ∀ c ∈ m.inputs, c.status ≠ ContentStatus.Available →
      ({ content_id := c.content_id, status := ContentStatus.Available,
         substatus := some ContentStatus.Available } : UpdatedContent) ∈ (get_updated_contents maps).2.1 := by
  have havail : is_all_inputs_dependency_available m.inputs_dependency = true := by
    rw [hdep]; rfl
  refine ⟨havail, ?_, ?_, ?_⟩
  · rw [get_updated_contents_map_closed]
    unfold updated_contents_map_closed_form
    simp [havail]
  · rw [get_updated_contents_map_closed]
    unfold updated_contents_map_closed_form
    simp [havail]
  · intro c hc hcs
    rw [get_updated_contents_upd_eq]
    rw [List.mem_flatMap]
    refine ⟨(map_id, m), hm, ?_⟩
    rw [get_updated_contents_map_closed]
    unfold updated_contents_map_closed_form
    simp only [havail, if_true, List.mem_append, List.mem_map]
    left
    exact ⟨c, List.mem_filter.mpr ⟨hc, by simpa using hcs⟩, rfl⟩

/-- C3: evaluated on a map set holding one log entry, get_new_contents
returns an empty Logs list and routes the log content (relation type Log,
status and substatus New, min_id and max_id coerced to 0) into the Outputs
list: the log loop appends to new_output_contents and new_log_contents is
never filled, contradicting the flattening contract that each log entry of
a map appears in the Logs list. -/
theorem get_new_contents_log_entries_misrouted :
    (get_new_contents demoTransform demoNewMaps).2.2.1 = [] ∧
    ((get_new_contents demoTransform demoNewMaps).2.1.map fun c => c.name) = ["log1"] ∧
    ((get_new_contents demoTransform demoNewMaps).2.1.map fun c => c.content_relation_type) =
      [ContentRelationType.Log] ∧
    ((get_new_contents demoTransform demoNewMaps).2.1.map fun c => (c.status, c.substatus)) =
      [(ContentStatus.New, ContentStatus.New)] ∧
    ((get_new_contents demoTransform demoNewMaps).2.1.map fun c => (c.min_id, c.max_id)) =
      [(some (0 : Int), some (0 : Int))] := by
  decide

theorem get_updated_contents_releases_dependency_free_inputs_witness :
    (1, demoMapNoDeps) ∈ demoMapsNoDeps ∧ demoMapNoDeps.inputs_dependency = [] ∧
    ({ content_id := 11, status := ContentStatus.Available,
       substatus := some ContentStatus.Available } : UpdatedContent) ∈ (get_updated_contents demoMapsNoDeps).2.1 :=
  ⟨by decide, rfl,
   (get_updated_contents_releases_dependency_free_inputs demoMapsNoDeps 1 demoMapNoDeps
      (by decide) rfl).2.2.2 demoContentNew (by decide) (by decide)⟩

theorem statsGet_statsUpdate (d : List (Nat × FileStats)) (k k1 : Nat) (f : FileStats → FileStats) :
    statsGet (statsUpdate d k f) k1 = if k1 = k then some (f (statsGetD d k)) else statsGet d k1 := by
  induction d with
  | nil =>
    by_cases h : k1 = k
    · subst h
      simp [statsUpdate, statsGet, statsGetD]
    · simp [statsUpdate, statsGet, statsGetD, h, Ne.symm h]
  | cons p rest ih =>
    obtain ⟨k2, v⟩ := p
    by_cases h2 : k2 = k
    · subst h2
      by_cases h1 : k1 = k2
      · subst h1
        simp [statsUpdate, statsGet, statsGetD]
      · simp [statsUpdate, statsGet, statsGetD, h1, Ne.symm h1]
    · by_cases h1 : k1 = k2
      · subst h1
        simp [statsUpdate, statsGet, statsGetD, h2, Ne.symm h2]
      · simp [statsUpdate, statsGet, statsGetD, h2, h1, Ne.symm h1, ih]

theorem statsGetD_accumulate (processed : List ContentStatus) (d : List (Nat × FileStats))
    (c : Content) (k : Nat) :
    statsGetD (accumulate_content_stats processed d c) k =
      if c.coll_id = k then
        (if c.status ∈ processed then
          { statsGetD d k with
              total_files := (statsGetD d k).total_files + 1
              processed_files := (statsGetD d k).processed_files + 1
              bytes := (statsGetD d k).bytes + c.bytes }
         else
          { statsGetD d k with
              total_files := (statsGetD d k).total_files + 1
              processing_files := (statsGetD d k).processing_files + 1 })
      else statsGetD d k := by
  unfold accumulate_content_stats
  by_cases hk : c.coll_id = k
  · subst hk
    simp [statsGetD, statsGet_statsUpdate]
  · simp [statsGetD, statsGet_statsUpdate, hk, Ne.symm hk]

theorem statsGetD_fold_counts (processed : List ContentStatus) (cs : List Content)
    (d : List (Nat × FileStats)) (k : Nat) :
    (statsGetD (cs.foldl (accumulate_content_stats processed) d) k).total_files =
      (statsGetD d k).total_files + cs.countP (fun c => decide (c.coll_id = k)) ∧
    (statsGetD (cs.foldl (accumulate_content_stats processed) d) k).processed_files =
      (statsGetD d k).processed_files
        + cs.countP (fun c => decide (c.coll_id = k) && decide (c.status ∈ processed)) ∧
    (statsGetD (cs.foldl (accumulate_content_stats processed) d) k).processing_files =
      (statsGetD d k).processing_files
        + cs.countP (fun c => decide (c.coll_id = k) && !(decide (c.status ∈ processed))) := by
  induction cs generalizing d with
  | nil => simp
  | cons c rest ih =>
    obtain ⟨ht, hpr, hpg⟩ := ih (accumulate_content_stats processed d c)
    have h2 := statsGetD_accumulate processed d c k
    refine ⟨?_, ?_, ?_⟩
    · rw [List.foldl_cons, ht, h2, List.countP_cons]
      by_cases hk : c.coll_id = k <;> by_cases hp : c.status ∈ processed <;>
        simp [hk, hp] <;> omega
    · rw [List.foldl_cons, hpr, h2, List.countP_cons]
      by_cases hk : c.coll_id = k <;> by_cases hp : c.status ∈ processed <;>
        simp [hk, hp] <;> omega
    · rw [List.foldl_cons, hpg, h2, List.countP_cons]
      by_cases hk : c.coll_id = k <;> by_cases hp : c.status ∈ processed <;>
        simp [hk, hp] <;> omega

theorem scan_input_status (maps : List (Nat × MapEntry)) (s : SynState) :
    (maps.foldl (fun s p => syn_collection_status_step s p.2) s).input_status =
      (allInputs maps).foldl (accumulate_content_stats input_processed_statuses) s.input_status := by
  induction maps generalizing s with
  | nil => rfl
  | cons p rest ih =>
    obtain ⟨mid, m⟩ := p
    rw [List.foldl_cons, ih]
    simp [allInputs, List.foldl_append, syn_collection_status_step]

theorem scan_output_status (maps : List (Nat × MapEntry)) (s : SynState) :
    (maps.foldl (fun s p => syn_collection_status_step s p.2) s).output_status =
      (allOutputs maps).foldl (accumulate_content_stats output_processed_statuses) s.output_status := by
  induction maps generalizing s with
  | nil => rfl
  | cons p rest ih =>
    obtain ⟨mid, m⟩ := p
    rw [List.foldl_cons, ih]
    simp [allOutputs, List.foldl_append, syn_collection_status_step]

theorem scan_log_status (maps : List (Nat × MapEntry)) (s : SynState) :
    (maps.foldl (fun s p => syn_collection_status_step s p.2) s).log_status =
      (allLogs maps).foldl (accumulate_content_stats output_processed_statuses) s.log_status := by
  induction maps generalizing s with
  | nil => rfl
  | cons p rest ih =>
    obtain ⟨mid, m⟩ := p
    rw [List.foldl_cons, ih]
    simp [allLogs, List.foldl_append, syn_collection_status_step]

theorem scan_output_statistics (maps : List (Nat × MapEntry)) (s : SynState) :
    (maps.foldl (fun s p => syn_collection_status_step s p.2) s).output_statistics =
      (allOutputs maps).foldl (fun d content => statIncr d (contentStatusName content.status))
        s.output_statistics := by
  induction maps generalizing s with
  | nil => rfl
  | cons p rest ih =>
    obtain ⟨mid, m⟩ := p
    rw [List.foldl_cons, ih]
    simp [allOutputs, List.foldl_append, syn_collection_status_step]

theorem scan_all_updates_flushed (maps : List (Nat × MapEntry)) (s : SynState) :
    (maps.foldl (fun s p => syn_collection_status_step s p.2) s).all_updates_flushed =
      (allOutputs maps).foldl
        (fun b content => if content.status ≠ content.substatus then false else b)
        s.all_updates_flushed := by
  induction maps generalizing s with
  | nil => rfl
  | cons p rest ih =>
    obtain ⟨mid, m⟩ := p
    rw [List.foldl_cons, ih]
    simp [allOutputs, List.foldl_append, syn_collection_status_step]

theorem flushed_foldl_eq_all (cs : List Content) (b : Bool) :
    cs.foldl (fun b content => if content.status ≠ content.substatus then false else b) b =
      (b && cs.all fun content => decide (content.status = content.substatus)) := by
  induction cs generalizing b with
  | nil => simp
  | cons c rest ih =>
    rw [List.foldl_cons, ih]
    by_cases h : c.status = c.substatus
    · simp [h]
    · simp [h]

theorem statGetD_statIncr (d : List (String × Nat)) (k k1 : String) :
    statGetD (statIncr d k) k1 = statGetD d k1 + if k1 = k then 1 else 0 := by
  induction d with
  | nil =>
    by_cases h : k1 = k
    · subst h
      simp [statIncr, statGetD]
    · simp [statIncr, statGetD, h, Ne.symm h]
  | cons p rest ih =>
    obtain ⟨k2, v⟩ := p
    by_cases h2 : k2 = k
    · subst h2
      by_cases h1 : k1 = k2
      · subst h1
        simp [statIncr, statGetD]
      · simp [statIncr, statGetD, h1, Ne.symm h1]
    · by_cases h1 : k1 = k2
      · subst h1
        simp [statIncr, statGetD, h2, Ne.symm h2]
      · simp [statIncr, statGetD, h2, h1, Ne.symm h1, ih]

theorem statGetD_fold_counts (cs : List Content) (d : List (String × Nat)) (k : String) :
    statGetD (cs.foldl (fun d content => statIncr d (contentStatusName content.status)) d) k =
      statGetD d k + cs.countP (fun c => decide (contentStatusName c.status = k)) := by
  induction cs generalizing d with
  | nil => simp
  | cons c rest ih =>
    rw [List.foldl_cons, ih, statGetD_statIncr, List.countP_cons]
    by_cases h : contentStatusName c.status = k
    · simp [h]
      try omega
    · simp [h, Ne.symm h]
      try omega

theorem countP_split (cs : List Content) (q p : Content → Bool) :
    cs.countP q = cs.countP (fun c => q c && p c) + cs.countP (fun c => q c && !(p c)) := by
  induction cs with
  | nil => simp
  | cons c rest ih =>
    by_cases hq : q c <;> by_cases hp : p c <;>
      simp [List.countP_cons, hq, hp, ih] <;> omega

/-- C8: after the accumulation pass of syn_collection_status over any
registered maps, every coll_id's counters satisfy
total_files = processed_files + processing_files, where a content is
counted as processed exactly when its status lies in
{Available, Mapped, FakeAvailable} for inputs and {Available, FakeAvailable}
for outputs and logs, and as processing otherwise. Stated through the
defaulting lookup: for a coll_id never seen, both sides are the zero
record's fields. -/
theorem syn_collection_status_counter_invariant (maps : List (Nat × MapEntry)) (k : Nat) :
    ((statsGetD (syn_collection_status_scan maps).input_status k).total_files =
       (allInputs maps).countP (fun c => decide (c.coll_id = k)) ∧
     (statsGetD (syn_collection_status_scan maps).input_status k).processed_files =
       (allInputs maps).countP
         (fun c => decide (c.coll_id = k) && decide (c.status ∈ input_processed_statuses)) ∧
     (statsGetD (syn_collection_status_scan maps).input_status k).processing_files =
       (allInputs maps).countP
         (fun c => decide (c.coll_id = k) && !(decide (c.status ∈ input_processed_statuses))) ∧
     (statsGetD (syn_collection_status_scan maps).input_status k).total_files =
       (statsGetD (syn_collection_status_scan maps).input_status k).processed_files
         + (statsGetD (syn_collection_status_scan maps).input_status k).processing_files) ∧
    ((statsGetD (syn_collection_status_scan maps).output_status k).total_files =
       (allOutputs maps).countP (fun c => decide (c.coll_id = k)) ∧
     (statsGetD (syn_collection_status_scan maps).output_status k).processed_files =
       (allOutputs maps).countP
         (fun c => decide (c.coll_id = k) && decide (c.status ∈ output_processed_statuses)) ∧
     (statsGetD (syn_collection_status_scan maps).output_status k).processing_files =
       (allOutputs maps).countP
         (fun c => decide (c.coll_id = k) && !(decide (c.status ∈ output_processed_statuses))) ∧
     (statsGetD (syn_collection_status_scan maps).output_status k).total_files =
       (statsGetD (syn_collection_status_scan maps).output_status k).processed_files
         + (statsGetD (syn_collection_status_scan maps).output_status k).processing_files) ∧
    ((statsGetD (syn_collection_status_scan maps).log_status k).total_files =
       (allLogs maps).countP (fun c => decide (c.coll_id = k)) ∧
     (statsGetD (syn_collection_status_scan maps).log_status k).processed_files =
       (allLogs maps).countP
         (fun c => decide (c.coll_id = k) && decide (c.status ∈ output_processed_statuses)) ∧
     (statsGetD (syn_collection_status_scan maps).log_status k).processing_files =
       (allLogs maps).countP
         (fun c => decide (c.coll_id = k) && !(decide (c.status ∈ output_processed_statuses))) ∧
     (statsGetD (syn_collection_status_scan maps).log_status k).total_files =
       (statsGetD (syn_collection_status_scan maps).log_status k).processed_files
         + (statsGetD (syn_collection_status_scan maps).log_status k).processing_files) := by
  have hi : (syn_collection_status_scan maps).input_status =
      (allInputs maps).foldl (accumulate_content_stats input_processed_statuses) [] :=
    scan_input_status maps _
  have ho : (syn_collection_status_scan maps).output_status =
      (allOutputs maps).foldl (accumulate_content_stats output_processed_statuses) [] :=
    scan_output_status maps _
  have hl : (syn_collection_status_scan maps).log_status =
      (allLogs maps).foldl (accumulate_content_stats output_processed_statuses) [] :=
    scan_log_status maps _
  have hzero : statsGetD [] k = FileStats.init := rfl
  have ci := statsGetD_fold_counts input_processed_statuses (allInputs maps) [] k
  have co := statsGetD_fold_counts output_processed_statuses (allOutputs maps) [] k
  have cl := statsGetD_fold_counts output_processed_statuses (allLogs maps) [] k
  rw [hzero, ← hi] at ci
  rw [hzero, ← ho] at co
  rw [hzero, ← hl] at cl
  simp only [FileStats.init, Nat.zero_add] at ci co cl
  refine ⟨⟨ci.1, ci.2.1, ci.2.2, ?_⟩, ⟨co.1, co.2.1, co.2.2, ?_⟩, ⟨cl.1, cl.2.1, cl.2.2, ?_⟩⟩
  · rw [ci.1, ci.2.1, ci.2.2]
    exact countP_split _ _ _
  · rw [co.1, co.2.1, co.2.2]
    exact countP_split _ _ _
  · rw [cl.1, cl.2.1, cl.2.2]
    exact countP_split _ _ _

/-- C9: the pair syn_collection_status returns satisfies: the output
statistics map each status name to exactly the number of Output contents
across all registered maps bearing that status name (0 for a name never
seen), and the all-updates-flushed flag is true exactly when every Output
content has status equal to substatus. -/
theorem syn_collection_status_output_law
    (input_collections output_collections log_collections : List Collection)
    (maps : List (Nat × MapEntry)) (s : String) :
    statGetD (syn_collection_status input_collections output_collections log_collections maps).2.2.2.2 s =
      (allOutputs maps).countP (fun c => decide (contentStatusName c.status = s)) ∧
    ((syn_collection_status input_collections output_collections log_collections maps).2.2.2.1 = true ↔
      ∀ c ∈ allOutputs maps, c.status = c.substatus) := by
  have hstats : (syn_collection_status_scan maps).output_statistics =
      (allOutputs maps).foldl (fun d content => statIncr d (contentStatusName content.status)) [] :=
    scan_output_statistics maps _
  have hfl : (syn_collection_status_scan maps).all_updates_flushed =
      (allOutputs maps).foldl
        (fun b content => if content.status ≠ content.substatus then false else b) true :=
    scan_all_updates_flushed maps _
  constructor
  · show statGetD (syn_collection_status_scan maps).output_statistics s = _
    rw [hstats]
    have := statGetD_fold_counts (allOutputs maps) [] s
    simpa [statGetD] using this
  · show (syn_collection_status_scan maps).all_updates_flushed = true ↔ _
    rw [hfl, flushed_foldl_eq_all]
    simp [List.all_eq_true]

/-- C6 counterexample: at the boundary where the pre-increment retries
counter equals the limit (retries = limit = 100), the written retries value
101 exceeds the limit, yet both handlers keep status Transforming, because
the source tests `transform['retries'] > self.retries` before incrementing;
so "Failed when the incremented retries exceeds the limit" is false. -/
theorem handle_transform_on_error_boundary :
    (handle_new_transform_on_error 100 100 1800).retries = 101 ∧ 101 > 100 ∧
    (handle_new_transform_on_error 100 100 1800).status = TransformStatus.Transforming ∧
    (handle_update_transform_on_error 100 100 1800).status = TransformStatus.Transforming ∧
    TransformStatus.Transforming ≠ TransformStatus.Failed := by
  decide

/-- C6 as amended: on an exception both handlers write retries incremented
by 1 and locking Idle; the status is Failed exactly when the pre-increment
retries exceeds the retries limit and Transforming otherwise; and in both
cases next_poll_at is pushed out by poll_time_period times
max(4, pre-increment retries). -/
theorem handle_transform_on_error_params (r lim p : Nat) :
    (handle_new_transform_on_error r lim p =
      { status := if r > lim then TransformStatus.Failed else TransformStatus.Transforming,
        next_poll_delta := p * max 4 r, retries := r + 1, locking := TransformLocking.Idle }) ∧
    handle_update_transform_on_error r lim p = handle_new_transform_on_error r lim p ∧
    (r ≤ lim → (handle_new_transform_on_error r lim p).status = TransformStatus.Transforming) ∧
    (r > lim → (handle_new_transform_on_error r lim p).status = TransformStatus.Failed) := by
  refine ⟨rfl, rfl, ?_, ?_⟩
  · intro h
    simp [handle_new_transform_on_error, Nat.not_lt.mpr h]
  · intro h
    simp [handle_new_transform_on_error, h]

/-- C7 counterexample: a transform in the terminal status Failed does not
short-circuit in process_resume_transform — the guard admits only Finished,
so the handler proceeds with the resume path instead of writing the
informational lock-release row. -/
theorem process_resume_transform_no_shortcircuit_on_failed :
    TransformStatus.Failed ∈ terminated_statuses ∧
    process_resume_transform_guard demoFailedTransform = OperatorGuardOutcome.proceed ∧
    ∀ l e, OperatorGuardOutcome.proceed ≠ OperatorGuardOutcome.shortCircuitWrite l e := by
  refine ⟨by decide, by decide, ?_⟩
  intro l e h
  cases h

/-- C7 as amended: for a transform whose errors dict carries no msg entry,
process_abort_transform short-circuits on every one of the six terminal
statuses, writing only locking Idle plus the informational extra_msg (the
parameter set carries no status, so the status is untouched), while
process_resume_transform short-circuits only on Finished and proceeds on
the other five terminal statuses. -/
theorem process_abort_resume_guard_terminal (tf : Transform) (herr : tf.errors_msg = none) :
    (tf.status ∈ terminated_statuses →
      process_abort_transform_guard tf =
        OperatorGuardOutcome.shortCircuitWrite TransformLocking.Idle
          "Transform is already terminated. Cannot be aborted") ∧
    (tf.status = TransformStatus.Finished →
      process_resume_transform_guard tf =
        OperatorGuardOutcome.shortCircuitWrite TransformLocking.Idle
          "Transform is already finished. Cannot be resumed") ∧
    (tf.status ∈ terminated_statuses → tf.status ≠ TransformStatus.Finished →
      process_resume_transform_guard tf = OperatorGuardOutcome.proceed) := by
  refine ⟨?_, ?_, ?_⟩
  · intro hterm
    simp [process_abort_transform_guard, hterm, herr]
  · intro hfin
    simp [process_resume_transform_guard, hfin, herr]
  · intro hterm hnotfin
    simp [process_resume_transform_guard, hnotfin]

theorem process_abort_resume_guard_terminal_witness :
    demoFailedTransform.errors_msg = none ∧
    (demoFailedTransform.status ∈ terminated_statuses →
      process_abort_transform_guard demoFailedTransform =
        OperatorGuardOutcome.shortCircuitWrite TransformLocking.Idle
          "Transform is already terminated. Cannot be aborted") :=
  ⟨rfl, (process_abort_resume_guard_terminal demoFailedTransform rfl).1⟩

theorem update_transform_retry_loop_bounds (fails : Nat → Bool) :
    ∀ d retry_num, 5 - retry_num = d →
      1 ≤ (update_transform_retry_loop fails retry_num).2.1 ∧
      (update_transform_retry_loop fails retry_num).2.1 ≤ max 1 d ∧
      (update_transform_retry_loop fails retry_num).1 =
        (List.range ((update_transform_retry_loop fails retry_num).2.1 - 1)).map
          (fun i => 60 * (retry_num + i + 1) * 2) := by
  intro d
  induction d with
  | zero =>
    intro rn h
    have h5 : ¬ rn + 1 < 5 := by omega
    by_cases hf : fails (rn + 1) = true
    · have hstep : update_transform_retry_loop fails rn = ([], 1, false) := by
        rw [update_transform_retry_loop]
        simp [hf, h5]
      rw [hstep]
      simp
    · have hstep : update_transform_retry_loop fails rn = ([], 1, true) := by
        rw [update_transform_retry_loop]
        simp [hf]
      rw [hstep]
      simp
  | succ d ih =>
    intro rn h
    by_cases hf : fails (rn + 1) = true
    · by_cases h5 : rn + 1 < 5
      · have hstep : update_transform_retry_loop fails rn =
            (60 * (rn + 1) * 2 :: (update_transform_retry_loop fails (rn + 1)).1,
             (update_transform_retry_loop fails (rn + 1)).2.1 + 1,
             (update_transform_retry_loop fails (rn + 1)).2.2) := by
          rw [update_transform_retry_loop]
          simp [hf, h5]
        have hd : 5 - (rn + 1) = d := by omega
        obtain ⟨h1, h2, h3⟩ := ih (rn + 1) hd
        have hdpos : 1 ≤ d := by omega
        have e1 : max 1 d = d := max_eq_right hdpos
        have e2 : max 1 (d + 1) = d + 1 := max_eq_right (by omega)
        rw [e1] at h2
        rw [hstep]
        refine ⟨?_, ?_, ?_⟩
        · show 1 ≤ (update_transform_retry_loop fails (rn + 1)).2.1 + 1
          omega
        · show (update_transform_retry_loop fails (rn + 1)).2.1 + 1 ≤ max 1 (d + 1)
          rw [e2]
          omega
        · show 60 * (rn + 1) * 2 :: (update_transform_retry_loop fails (rn + 1)).1 =
            List.map (fun i => 60 * (rn + i + 1) * 2)
              (List.range ((update_transform_retry_loop fails (rn + 1)).2.1 + 1 - 1))
          obtain ⟨a, ha⟩ : ∃ a, (update_transform_retry_loop fails (rn + 1)).2.1 = a + 1 :=
            ⟨(update_transform_retry_loop fails (rn + 1)).2.1 - 1, by omega⟩
          rw [ha] at h3
          simp only [Nat.add_sub_cancel] at h3
          rw [ha, h3, Nat.add_sub_cancel, List.range_succ_eq_map]
          simp only [List.map_cons, List.map_map, Function.comp_def]
          congr 1
          apply List.map_congr_left
          intro i _
          omega
      · have hstep : update_transform_retry_loop fails rn = ([], 1, false) := by
          rw [update_transform_retry_loop]
          simp [hf, h5]
        rw [hstep]
        simp
    · have hstep : update_transform_retry_loop fails rn = ([], 1, true) := by
        rw [update_transform_retry_loop]
        simp [hf]
      rw [hstep]
      simp

/-- C5: the deadlock-retry contract of update_transform. The loop makes at
most 5 attempts; the sleeps performed are 60 * attempt * 2 seconds for each
failed non-final attempt; a facade that deadlocks on the first two attempts
and succeeds on the third commits the bundle exactly once after sleeps of
120 and 240 seconds; and a facade that always deadlocks stops after 5
attempts and sleeps of 120, 240, 360, 480 seconds, surfaces the error, and
makes the caller write only the parameter row with status Transforming,
retries incremented by 1, a next_poll_at backoff of poll_time_period and
locking Idle. -/
theorem update_transform_deadlock_retry (fails : Nat → Bool) (r p : Nat) :
    (update_transform_retry_loop fails 0).2.1 ≤ 5 ∧
    ((update_transform_retry_loop fails 0).1 =
      (List.range ((update_transform_retry_loop fails 0).2.1 - 1)).map
        (fun i => 60 * (i + 1) * 2)) ∧
    update_transform_run failsFirstTwo r p =
      { sleeps := [120, 240], attempts := 3, commits := 1, surfaced := false,
        fallback := none } ∧
    update_transform_run failsAlways r p =
      { sleeps := [120, 240, 360, 480], attempts := 5, commits := 0, surfaced := true,
        fallback := some { status := TransformStatus.Transforming, next_poll_delta := p,
                           retries := r + 1, locking := TransformLocking.Idle } } := by
  obtain ⟨h1, h2, h3⟩ := update_transform_retry_loop_bounds fails 5 0 rfl
  refine ⟨by simpa using h2, by simpa using h3, ?_, ?_⟩
  · have hloop : update_transform_retry_loop failsFirstTwo 0 = ([120, 240], 3, true) := by
      rw [update_transform_retry_loop]
      rw [update_transform_retry_loop]
      rw [update_transform_retry_loop]
      simp [failsFirstTwo]
    simp [update_transform_run, hloop]
  · have hloop : update_transform_retry_loop failsAlways 0 = ([120, 240, 360, 480], 5, false) := by
      rw [update_transform_retry_loop]
      rw [update_transform_retry_loop]
      rw [update_transform_retry_loop]
      rw [update_transform_retry_loop]
      rw [update_transform_retry_loop]
      simp [failsAlways]
    simp [update_transform_run, hloop]

theorem generate_message_work_shape (tf : Transform) (w : Work) (rel : String) :
    ∃ m : Msg, generate_message tf (some w) none [] "work" rel = some m ∧
      m.is_work_content = true :=
  ⟨_, rfl, rfl⟩

theorem generate_message_collection_shape (tf : Transform) (w : Work) (coll : Collection)
    (rel : String) :
    ∃ m : Msg, generate_message tf (some w) (some coll) [] "collection" rel = some m ∧
      m.is_collection_content = true ∧ m.num_contents = 1 :=
  ⟨_, rfl, rfl, rfl⟩

theorem terminal_transition_msgs_shape (tf : Transform) (work : Work) (ts : TransformStatus)
    (cs : CollectionStatus) (ics ocs lcs : List Collection) :
    (terminal_transition tf work ts cs ics ocs lcs).msgs.length =
      1 + (ics.length + ocs.length + lcs.length) ∧
    (∃ m : Msg, (terminal_transition tf work ts cs ics ocs lcs).msgs.head? = some (some m) ∧
      m.is_work_content = true) ∧
    ∀ o ∈ (terminal_transition tf work ts cs ics ocs lcs).msgs.tail,
      ∃ m : Msg, o = some m ∧ m.is_collection_content = true ∧ m.num_contents = 1 := by
  unfold terminal_transition
  refine ⟨?_, ?_, ?_⟩
  · simp
    omega
  · obtain ⟨m, hm, hw⟩ := generate_message_work_shape { tf with status := ts } work "input"
    exact ⟨m, by simp [hm], hw⟩
  · intro o ho
    simp only [List.tail_cons, List.mem_append, List.mem_map] at ho
    rcases ho with (⟨coll, hc, rfl⟩ | ⟨coll, hc, rfl⟩) | ⟨coll, hc, rfl⟩ <;>
      exact generate_message_collection_shape _ _ _ _

theorem transition_spec_of_chain (tf : Transform) (work : Work) (ics ocs lcs : List Collection)
    (registered : List (Nat × MapEntry)) (p pop : Nat) (ts : TransformStatus)
    (cs : CollectionStatus)
    (hchain : transform_transition_chain tf work ics ocs lcs registered =
      terminal_transition tf work ts cs ics ocs lcs) :
    terminal_branch_spec tf work ics ocs lcs
      (transform_transition tf work ics ocs lcs registered p pop) ts cs := by
  have hmsgs : (transform_transition tf work ics ocs lcs registered p pop).msgs =
      (terminal_transition tf work ts cs ics ocs lcs).msgs := by
    show (transform_transition_chain tf work ics ocs lcs registered).msgs = _
    rw [hchain]
  obtain ⟨hlen, hhead, htail⟩ := terminal_transition_msgs_shape tf work ts cs ics ocs lcs
  refine ⟨?_, ?_, ?_, ?_, ?_, ?_, ?_, ?_⟩
  · show (transform_transition_chain tf work ics ocs lcs registered).status = ts
    rw [hchain]
    rfl
  · show (transform_transition_chain tf work ics ocs lcs registered).input_collections = _
    rw [hchain]
    rfl
  · show (transform_transition_chain tf work ics ocs lcs registered).output_collections = _
    rw [hchain]
    rfl
  · show (transform_transition_chain tf work ics ocs lcs registered).log_collections = _
    rw [hchain]
    rfl
  · rw [hmsgs]
    rfl
  · rw [hmsgs]
    exact hlen
  · rw [hmsgs]
    exact hhead
  · rw [hmsgs]
    exact htail

/-- C2: in the transition block of handle_update_transform_real, for a
transform whose status is not a To* operator state, the Work terminal
predicates are consulted in the order is_finished, is_subfinished,
is_failed, is_expired, is_cancelled, is_suspended, and the first match
drives the transform status to Finished, SubFinished, Failed, Expired,
Cancelled or Suspended, every input, output and log collection to Closed,
SubClosed, Failed, SubClosed, Cancelled or Suspended respectively, and
appends exactly one Work message plus exactly one Collection message per
collection to the outbound messages. -/
theorem transform_transition_terminal_priority (tf : Transform) (work : Work)
    (ics ocs lcs : List Collection) (registered : List (Nat × MapEntry)) (p pop : Nat)
    (hop : tf.status ∉ opStatuses) :
    (work.is_finished = true →
      terminal_branch_spec tf work ics ocs lcs
        (transform_transition tf work ics ocs lcs registered p pop)
        TransformStatus.Finished CollectionStatus.Closed) ∧
    (work.is_finished = false → work.is_subfinished = true →
      terminal_branch_spec tf work ics ocs lcs
        (transform_transition tf work ics ocs lcs registered p pop)
        TransformStatus.SubFinished CollectionStatus.SubClosed) ∧
    (work.is_finished = false → work.is_subfinished = false → work.is_failed = true →
      terminal_branch_spec tf work ics ocs lcs
        (transform_transition tf work ics ocs lcs registered p pop)
        TransformStatus.Failed CollectionStatus.Failed) ∧
    (work.is_finished = false → work.is_subfinished = false → work.is_failed = false →
      work.is_expired = true →
      terminal_branch_spec tf work ics ocs lcs
        (transform_transition tf work ics ocs lcs registered p pop)
        TransformStatus.Expired CollectionStatus.SubClosed) ∧
    (work.is_finished = false → work.is_subfinished = false → work.is_failed = false →
      work.is_expired = false → work.is_cancelled = true →
      terminal_branch_spec tf work ics ocs lcs
        (transform_transition tf work ics ocs lcs registered p pop)
        TransformStatus.Cancelled CollectionStatus.Cancelled) ∧
    (work.is_finished = false → work.is_subfinished = false → work.is_failed = false →
      work.is_expired = false → work.is_cancelled = false → work.is_suspended = true →
      terminal_branch_spec tf work ics ocs lcs
        (transform_transition tf work ics ocs lcs registered p pop)
        TransformStatus.Suspended CollectionStatus.Suspended) := by
  simp only [opStatuses, List.mem_cons, List.not_mem_nil, or_false, not_or] at hop
  obtain ⟨h1, h2, h3, h4, h5, h6⟩ := hop
  refine ⟨?_, ?_, ?_, ?_, ?_, ?_⟩
  · intro hf
    apply transition_spec_of_chain
    unfold transform_transition_chain
    simp [h1, h2, h3, h4, h5, h6, hf]
  · intro hf hs
    apply transition_spec_of_chain
    unfold transform_transition_chain
    simp [h1, h2, h3, h4, h5, h6, hf, hs]
  · intro hf hs hfl
    apply transition_spec_of_chain
    unfold transform_transition_chain
    simp [h1, h2, h3, h4, h5, h6, hf, hs, hfl]
  · intro hf hs hfl he
    apply transition_spec_of_chain
    unfold transform_transition_chain
    simp [h1, h2, h3, h4, h5, h6, hf, hs, hfl, he]
  · intro hf hs hfl he hc
    apply transition_spec_of_chain
    unfold transform_transition_chain
    simp [h1, h2, h3, h4, h5, h6, hf, hs, hfl, he, hc]
  · intro hf hs hfl he hc hsp
    apply transition_spec_of_chain
    unfold transform_transition_chain
    simp [h1, h2, h3, h4, h5, h6, hf, hs, hfl, he, hc, hsp]

theorem transform_transition_terminal_priority_witness :
    demoTransform.status ∉ opStatuses ∧
    terminal_branch_spec demoTransform demoWorkFinished [demoColl] [] []
      (transform_transition demoTransform demoWorkFinished [demoColl] [] [] [] 1800 300)
      TransformStatus.Finished CollectionStatus.Closed :=
  ⟨by decide,
   (transform_transition_terminal_priority demoTransform demoWorkFinished [demoColl] [] [] [] 1800
      300 (by decide)).1 rfl⟩

theorem reactive_contents_eq_flatMap (registered : List (Nat × MapEntry)) :
    reactive_contents registered = registered.flatMap fun q => reactive_contents_map q.2 := by
  induction registered with
  | nil => rfl
  | cons q rest ih =>
    obtain ⟨mid, m⟩ := q
    simp [reactive_contents, ih]

/-- C4: a transform in status ToResume comes out of the transition block
with status Resuming, retries reset to 0, work.toresume set, every input,
output and log collection reopened, and the reactivation resets applied:
every map with at least one Output not in status Available has all its
Inputs and Outputs reset to New (and its non-Available dependencies reset
to New), while maps whose Outputs are all Available contribute no updates. -/
theorem transform_transition_toresume (tf : Transform) (work : Work)
    (ics ocs lcs : List Collection) (registered : List (Nat × MapEntry)) (p pop : Nat)
    (htf : tf.status = TransformStatus.ToResume) :
    toresume_spec tf work ics ocs lcs registered p pop := by
  have hchain : transform_transition_chain tf work ics ocs lcs registered =
      { status := TransformStatus.Resuming, work := { work with toresume := true },
        input_collections := ics.map fun coll => { coll with status := CollectionStatus.Open },
        output_collections := ocs.map fun coll => { coll with status := CollectionStatus.Open },
        log_collections := lcs.map fun coll => { coll with status := CollectionStatus.Open },
        to_resume_transform := true, reactivated_contents := reactive_contents registered,
        msgs := [] } := by
    unfold transform_transition_chain
    simp [htf]
  refine ⟨?_, rfl, ?_, ?_, ?_, ?_, ?_, ?_, ?_, reactive_contents_eq_flatMap registered, ?_⟩
  · show (transform_transition_chain tf work ics ocs lcs registered).status = _
    rw [hchain]
  · show (transform_transition_chain tf work ics ocs lcs registered).work = _
    rw [hchain]
  · show (transform_transition_chain tf work ics ocs lcs registered).input_collections = _
    rw [hchain]
  · show (transform_transition_chain tf work ics ocs lcs registered).output_collections = _
    rw [hchain]
  · show (transform_transition_chain tf work ics ocs lcs registered).log_collections = _
    rw [hchain]
  · show (transform_transition_chain tf work ics ocs lcs registered).to_resume_transform = _
    rw [hchain]
  · show (if ¬ tf.status ∈ opStatuses then p
      else if (transform_transition_chain tf work ics ocs lcs registered).to_resume_transform then
        pop * 5
      else pop) = pop * 5
    rw [hchain, htf]
    simp [opStatuses]
  · show (transform_transition_chain tf work ics ocs lcs registered).reactivated_contents = _
    rw [hchain]
  · intro m
    constructor
    · intro h
      simp only [reactive_contents_map]
      rw [h]
      simp
    · intro h
      simp only [reactive_contents_map]
      rw [h]
      simp

theorem transform_transition_toresume_witness :
    demoResumeTransform.status = TransformStatus.ToResume ∧
    toresume_spec demoResumeTransform demoWorkQuiet [demoColl] [] [] demoMapsNoDeps 1800 300 :=
  ⟨rfl,
   transform_transition_toresume demoResumeTransform demoWorkQuiet [demoColl] [] [] demoMapsNoDeps
     1800 300 rfl⟩

end IDDS
